import Mathlib

/-!
Verification development for the notion-anki pipeline.

The Python modules `notion.py`, `anki.py` and `server.py` are shallowly
embedded: JSON-ish dictionaries from the document service become structures
with `Option` fields (a `none` field models a missing key), Python
exceptions become an error type threaded through `Except`, and each
network call becomes a function parameter so that theorems quantify over
every behaviour of the external services.
-/

namespace NotionAnki

/-- Kinds of Python exception relevant to the embedded code. -/
inductive PyErr where
  | keyError
  | indexError
  | typeError
  | valueError
  | networkError
deriving DecidableEq, Repr

/-- Python `str.strip` character class test. -/
def ws (c : Char) : Bool := c.isWhitespace

/-- Strip leading and trailing whitespace from a character list. -/
def stripL (l : List Char) : List Char :=
  ((l.dropWhile ws).reverse.dropWhile ws).reverse

/-- Embedding of Python `str.strip()`. -/
def pyStrip (s : String) : String := ⟨stripL s.data⟩

/-- A rich-text object `\x7b'content': ...\x7d`; `none` models a missing key. -/
structure TextObj where
  content : Option String
deriving DecidableEq, Repr

/-- One entry of a `rich_text` array; `text = none` models a missing `text` key. -/
structure Excerpt where
  text : Option TextObj
deriving DecidableEq, Repr

/-- The payload dictionary stored under a block-type key. -/
structure BlockData where
  rich_text : Option (List Excerpt)
deriving DecidableEq, Repr

/-- A content block dictionary: `id` and `type` keys, and the payload stored
under the key whose name equals the type tag. A `none` field models the key
being absent from the dictionary. -/
structure Block where
  id : Option String
  type : Option String
  payload : Option BlockData
deriving DecidableEq, Repr

/-- Does `sub` occur as a leading segment of `l`? -/
def leadsWith : List Char → List Char → Bool
  | _, [] => true
  | [], _ :: _ => false
  | a :: l, b :: sub => a == b && leadsWith l sub

/-- Does `sub` occur as a contiguous segment of `l`? -/
def hasSub : List Char → List Char → Bool
  | [], sub => sub.isEmpty
  | a :: l, sub => leadsWith (a :: l) sub || hasSub l sub

/-- Embedding of the Python containment test `sub in s` on strings. -/
def containsStr (s sub : String) : Bool := hasSub s.data sub.data

/-- Concatenate the text contents of a rich-text array onto an accumulator,
as the `for excerpt in ...` loops of `get_toggle_answer` do: an entry without
a `text` key is skipped, an entry whose text object lacks `content` raises
`KeyError`. -/
def renderRuns : String → List Excerpt → Except PyErr String
  | acc, [] => .ok acc
  | acc, e :: rest =>
    match e.text with
    | none => renderRuns acc rest
    | some t =>
      match t.content with
      | none => .error .keyError
      | some c => renderRuns (acc ++ c) rest

/-- The loop of `get_toggle_answer` over the fetched toggle children, carrying
the numbered-list counter, the previous block type and the accumulated answer.
Direct dictionary accesses (`block['type']`, `block['paragraph']`,
`...['rich_text']`) raise `KeyError` when the key is missing. -/
def toggleLoop : List Block → Nat → Option String → String → Except PyErr String
  | [], _, _, answer => .ok answer
  | b :: rest, number, prev, answer =>
    match b.type with
    | none => .error .keyError
    | some btype =>
      if btype == "paragraph" then
        match b.payload with
        | none => .error .keyError
        | some pl =>
          match pl.rich_text with
          | none => .error .keyError
          | some rt =>
            match renderRuns "" rt with
            | .error e => .error e
            | .ok txt => toggleLoop rest number (some btype) (answer ++ txt ++ "\n")
      else if btype == "bulleted_list_item" then
        match b.payload with
        | none => .error .keyError
        | some pl =>
          match pl.rich_text with
          | none => .error .keyError
          | some rt =>
            match renderRuns "- " rt with
            | .error e => .error e
            | .ok txt => toggleLoop rest number (some btype) (answer ++ txt ++ "\n")
      else if btype == "numbered_list_item" then
        let n := if prev == some "numbered_list_item" then number + 1 else 1
        match b.payload with
        | none => .error .keyError
        | some pl =>
          match pl.rich_text with
          | none => .error .keyError
          | some rt =>
            match renderRuns (toString n ++ ". ") rt with
            | .error e => .error e
            | .ok txt => toggleLoop rest n (some btype) (answer ++ txt ++ "\n")
      else toggleLoop rest number (some btype) answer

/-- `get_toggle_answer` from `notion.py`: fetch the children of the toggle
block (one network round-trip, modelled by `childrenOf`) and reconstruct the
answer text. -/
def get_toggle_answer (childrenOf : String → Except PyErr (List Block))
    (block_id : String) : Except PyErr String :=
  match childrenOf block_id with
  | .error e => .error e
  | .ok children => toggleLoop children 1 none ""

/-- The guarded read of the first rich-text run performed by `analyze_blocks`:
`if rich_text and rich_text[0].get('text'): x = rich_text[0]['text']['content']`.
Returns `none` when the guard fails, raises `KeyError` when the text object
lacks a `content` key. -/
def firstRunContent : List Excerpt → Except PyErr (Option String)
  | [] => .ok none
  | e :: _ =>
    match e.text with
    | none => .ok none
    | some t =>
      match t.content with
      | none => .error .keyError
      | some c => .ok (some c)

/-- What one iteration of the `analyze_blocks` loop contributes. -/
inductive WalkAction where
  | skip
  | addTopic (t : String)
  | addQA (q a : String)
deriving DecidableEq, Repr

/-- Parse one top-level block into its contribution, mirroring the body of the
`try` in `analyze_blocks`. Errors are the exceptions that body can raise. -/
def blockParse (childrenOf : String → Except PyErr (List Block))
    (b : Block) : Except PyErr WalkAction :=
  let block_type := b.type.getD ""
  if containsStr block_type "heading" then
    let rich_text := (match b.payload with | some d => d.rich_text.getD [] | none => [])
    match firstRunContent rich_text with
    | .error e => .error e
    | .ok none => .ok .skip
    | .ok (some heading) =>
      if pyStrip heading = "" then .ok .skip else .ok (.addTopic (pyStrip heading))
  else if block_type == "toggle" then
    let rich_text := (match b.payload with | some d => d.rich_text.getD [] | none => [])
    match firstRunContent rich_text with
    | .error e => .error e
    | .ok none => .ok .skip
    | .ok (some question) =>
      if pyStrip question = "" then .ok .skip
      else
        match b.id with
        | none => .error .keyError
        | some i =>
          match get_toggle_answer childrenOf i with
          | .error e => .error e
          | .ok answer =>
            if pyStrip answer = "" then .ok .skip
            else .ok (.addQA (pyStrip question) (pyStrip answer))
  else .ok .skip

/-- Python `set.add` on the topic set, modelled as an order-keeping,
duplicate-collapsing list. -/
def setAdd (xs : List String) (x : String) : List String :=
  if xs.contains x then xs else xs ++ [x]

/-- Python `dict.__setitem__` on the insertion-ordered content dictionary:
an existing key keeps its position and gets the new value, a new key is
appended. -/
def dictInsert (xs : List (String × String)) (k v : String) : List (String × String) :=
  if xs.any (fun p => p.1 == k) then
    xs.map (fun p => if p.1 == k then (k, v) else p)
  else xs ++ [(k, v)]

/-- The accumulator of the `analyze_blocks` loop. -/
structure WalkState where
  topics : List String
  content : List (String × String)
deriving DecidableEq, Repr

/-- Apply one parsed contribution to the accumulator. -/
def applyAction (st : WalkState) : WalkAction → WalkState
  | .skip => st
  | .addTopic x => ⟨setAdd st.topics x, st.content⟩
  | .addQA q a => ⟨st.topics, dictInsert st.content q a⟩

/-- The exception classes named by the per-block `except` clause of
`analyze_blocks`: `(KeyError, IndexError, TypeError)`. -/
def catchable : PyErr → Bool
  | .keyError => true
  | .indexError => true
  | .typeError => true
  | _ => false

/-- The loop of `analyze_blocks`: a caught per-block exception skips the block
and continues with the next sibling; any other exception propagates. -/
def analyzeGo (childrenOf : String → Except PyErr (List Block)) :
    WalkState → List Block → Except PyErr WalkState
  | st, [] => .ok st
  | st, b :: rest =>
    match blockParse childrenOf b with
    | .ok act => analyzeGo childrenOf (applyAction st act) rest
    | .error e => if catchable e then analyzeGo childrenOf st rest else .error e

/-- `analyze_blocks` from `notion.py`: walk the top-level blocks and return
the topic set and the question-to-answer dictionary. -/
def analyze_blocks (childrenOf : String → Except PyErr (List Block))
    (blocks : List Block) : Except PyErr (List String × List (String × String)) :=
  match analyzeGo childrenOf ⟨[], []⟩ blocks with
  | .ok st => .ok (st.topics, st.content)
  | .error e => .error e

/-- `fetch_page_content` from `notion.py`: list the page blocks, analyze them,
and return the pair only when both the topic set and the content dictionary
are non-empty, `None` otherwise. -/
def fetch_page_content (childrenOf : String → Except PyErr (List Block))
    (page_id : String) :
    Except PyErr (Option (List String × List (String × String))) :=
  match childrenOf page_id with
  | .error e => .error e
  | .ok blocks =>
    match analyze_blocks childrenOf blocks with
    | .error e => .error e
    | .ok (topics, content) =>
      if !topics.isEmpty && !content.isEmpty then .ok (some (topics, content))
      else .ok none

/-- A title-bearing property value: the list under its `title` key. -/
structure TitleProp where
  title : List Excerpt
deriving DecidableEq, Repr

/-- One result of the page search; `propTitle` and `propName` model the
optional `title` and `Name` keys of its `properties` dictionary. -/
structure PageResult where
  id : String
  url : String
  propTitle : Option TitleProp
  propName : Option TitleProp
deriving DecidableEq, Repr

/-- The payload of a successful page search. -/
structure FoundPage where
  page_id : String
  link : String
deriving DecidableEq, Repr

/-- The comparison `prop['title'][0]['text']['content'] == page_title`
performed by `search_notion_page` on a title property: an empty title array
raises `IndexError`, a missing `text` or `content` key raises `KeyError`. -/
def titleMatches (tp : TitleProp) (page_title : String) : Except PyErr Bool :=
  match tp.title with
  | [] => .error .indexError
  | e :: _ =>
    match e.text with
    | none => .error .keyError
    | some t =>
      match t.content with
      | none => .error .keyError
      | some c => .ok (c == page_title)

/-- `search_notion_page` from `notion.py`, over the results returned by the
search call: check the `title` property when that key is present, otherwise
the `Name` property; return the first exact match, `None` when no result
matches. -/
def search_notion_page : List PageResult → String → Except PyErr (Option FoundPage)
  | [], _ => .ok none
  | p :: rest, q =>
    match p.propTitle with
    | some tp =>
      match titleMatches tp q with
      | .error e => .error e
      | .ok true => .ok (some ⟨p.id, p.url⟩)
      | .ok false => search_notion_page rest q
    | none =>
      match p.propName with
      | some tp =>
        match titleMatches tp q with
        | .error e => .error e
        | .ok true => .ok (some ⟨p.id, p.url⟩)
        | .ok false => search_notion_page rest q
      | none => search_notion_page rest q

/-- The value found under a note dictionary `fields` key: either not a
dictionary at all, or a dictionary whose `Front` and `Back` keys may each be
present or absent. -/
inductive FieldsVal where
  | notDict
  | dict (hasFront hasBack : Bool)
deriving DecidableEq, Repr

/-- A note dictionary as `add_notes` inspects it: presence of the `deckName`
and `modelName` keys, and the optional `fields` key. -/
structure NoteDict where
  hasDeckName : Bool
  hasModelName : Bool
  fields : Option FieldsVal
deriving DecidableEq, Repr

/-- One element of the list handed to `add_notes`: an arbitrary non-dict
value, or a note dictionary. -/
inductive NoteInput where
  | notDict
  | note (d : NoteDict)
deriving DecidableEq, Repr

/-- The structural validation applied per note by `add_notes`: the value is a
dict, all of `deckName`, `modelName`, `fields` are present, and `fields` is a
dict containing both `Front` and `Back`. -/
def noteValid : NoteInput → Bool
  | .notDict => false
  | .note d =>
    d.hasDeckName && d.hasModelName &&
      (match d.fields with
       | none => false
       | some .notDict => false
       | some (.dict f b) => f && b)

/-- The `valid_notes` accumulation loop of `add_notes`. -/
def collectValid : List NoteInput → List NoteInput
  | [] => []
  | n :: rest => if noteValid n then n :: collectValid rest else collectValid rest

/-- `add_notes` from `anki.py`: empty input returns `[]`; invalid notes are
dropped; when no note survives, `[]` is returned without invoking the service;
otherwise the surviving notes are submitted in one batch call (modelled by
`invokeAdd`). -/
def add_notes (invokeAdd : List NoteInput → Except PyErr (List (Option Nat)))
    (notes : List NoteInput) : Except PyErr (List (Option Nat)) :=
  if notes.isEmpty then .ok []
  else
    let valid_notes := collectValid notes
    if valid_notes.isEmpty then .ok []
    else invokeAdd valid_notes

/-- `create_deck` from `anki.py`: an empty or whitespace-only deck name raises
`ValueError`; otherwise the `createDeck` service call is made on the stripped
name and its outcome (including any exception) is passed through. -/
def create_deck (invokeCreate : String → Except PyErr Nat)
    (deck_name : String) : Except PyErr Nat :=
  if pyStrip deck_name = "" then .error .valueError
  else invokeCreate (pyStrip deck_name)

/-- `sync_decks` from `anki.py`: the `sync` service call is wrapped in a
`try` whose `except` only logs, so the function returns normally whatever the
call does. -/
def sync_decks (invokeSync : Except PyErr Unit) : Except PyErr Unit :=
  match invokeSync with
  | .ok _ => .ok ()
  | .error _ => .ok ()

/-- The dictionary returned by `post_flashcards`. -/
structure PublishResult where
  status : String
  result : List (Option Nat)
  message : String
deriving DecidableEq, Repr

/-- `post_flashcards` from `server.py`: create the deck, submit the notes,
run the best-effort sync, and return status `added` with the submission
result; any exception inside the `try` yields status `error` with an empty
result. -/
def post_flashcards (invokeCreate : String → Except PyErr Nat)
    (invokeAdd : List NoteInput → Except PyErr (List (Option Nat)))
    (invokeSync : Except PyErr Unit)
    (page_name : String) (cards : List NoteInput) : PublishResult :=
  match create_deck invokeCreate page_name with
  | .error _ => ⟨"error", [], "Failed to add flashcards"⟩
  | .ok _ =>
    match add_notes invokeAdd cards with
    | .error _ => ⟨"error", [], "Failed to add flashcards"⟩
    | .ok result =>
      match sync_decks invokeSync with
      | .error _ => ⟨"error", [], "Failed to add flashcards"⟩
      | .ok _ => ⟨"added", result, "Added flashcards to Anki deck"⟩

/-- The envelope returned by the `search_page` tool. -/
structure SearchToolResult where
  status : String
  message : String
deriving DecidableEq, Repr

/-- The `search_page` tool from `server.py`: an empty or whitespace-only page
name is answered synchronously with an `error` envelope; otherwise the search
call and the result scan run inside a `try`, every exception being converted
to an `error` envelope. -/
def search_page (searchCall : String → Except PyErr (List PageResult))
    (page_name : String) : SearchToolResult :=
  if pyStrip page_name = "" then ⟨"error", "Page name cannot be empty."⟩
  else
    match searchCall (pyStrip page_name) with
    | .error _ => ⟨"error", "Search failed"⟩
    | .ok results =>
      match search_notion_page results (pyStrip page_name) with
      | .error _ => ⟨"error", "Search failed"⟩
      | .ok (some _) => ⟨"success", "Found page"⟩
      | .ok none => ⟨"error", "Page not found."⟩

/-- The envelope returned by the `extract_page_content` tool. -/
structure ExtractResult where
  status : String
  topics : List String
  content : List (String × String)
  message : String
deriving DecidableEq, Repr

/-- The `extract_page_content` tool from `server.py`: empty page id is an
`error` envelope; a `None` from `fetch_page_content` makes the tuple
unpacking raise `TypeError`, caught by the `except` and converted to an
`error` envelope, as is any other exception; otherwise the pair is returned
with status `success` unless both parts are empty. -/
def extract_page_content (childrenOf : String → Except PyErr (List Block))
    (page_id : String) : ExtractResult :=
  if pyStrip page_id = "" then ⟨"error", [], [], "Page ID cannot be empty."⟩
  else
    match fetch_page_content childrenOf (pyStrip page_id) with
    | .error _ => ⟨"error", [], [], "Content extraction failed"⟩
    | .ok none => ⟨"error", [], [], "Content extraction failed"⟩
    | .ok (some (topics, content)) =>
      if topics.isEmpty && content.isEmpty then
        ⟨"error", [], [], "No extractable content found in the page."⟩
      else ⟨"success", topics, content, "Extracted topics and content"⟩

/-- The envelope returned by the `generate_flashcards` tool. -/
structure GenResult where
  status : String
  cards : List NoteInput
  message : String
deriving DecidableEq, Repr

/-- The `generate_flashcards` tool from `server.py`: input validation answers
with status `failed`; the LLM call (modelled by `gen`) runs inside a `try`
whose `except` converts every exception to status `failed`; an empty card
list is `failed`; otherwise the cards go through `post_flashcards` and the
status is `created` exactly when publishing reported `added`. -/
def generate_flashcards
    (gen : String → List String → List (String × String) → Except PyErr (List NoteInput))
    (invokeCreate : String → Except PyErr Nat)
    (invokeAdd : List NoteInput → Except PyErr (List (Option Nat)))
    (invokeSync : Except PyErr Unit)
    (page_name : String) (topics : List String) (content : List (String × String)) :
    GenResult :=
  if pyStrip page_name = "" then ⟨"failed", [], "Page name cannot be empty"⟩
  else if topics.isEmpty && content.isEmpty then
    ⟨"failed", [], "No topics or content provided"⟩
  else if content.isEmpty then
    ⟨"failed", [], "No question-answer content found to generate flashcards"⟩
  else
    match gen page_name topics content with
    | .error _ => ⟨"failed", [], "Flashcard generation failed"⟩
    | .ok llm_cards =>
      if llm_cards.isEmpty then ⟨"failed", [], "No flashcards were generated"⟩
      else
        let pr := post_flashcards invokeCreate invokeAdd invokeSync page_name llm_cards
        if pr.status == "added" then
          ⟨"created", llm_cards, "Created flashcards in Anki"⟩
        else ⟨"failed", llm_cards, "Generated cards but failed to add to Anki"⟩

/-! Concrete block constructors used by the concrete-scenario theorems. -/

/-- A well-formed rich-text run with the given content. -/
def mkRun (s : String) : Excerpt := ⟨some ⟨some s⟩⟩

/-- A well-formed block with the given id, type tag and rich-text runs. -/
def mkBlock (i btype : String) (runs : List Excerpt) : Block :=
  ⟨some i, some btype, some ⟨some runs⟩⟩

/-- A paragraph block with a single text run. -/
def paraB (i s : String) : Block := mkBlock i "paragraph" [mkRun s]

/-- A bulleted-list-item block with a single text run. -/
def bulletB (i s : String) : Block := mkBlock i "bulleted_list_item" [mkRun s]

/-- A numbered-list-item block with a single text run. -/
def numB (i s : String) : Block := mkBlock i "numbered_list_item" [mkRun s]

/-- A toggle block with a single text run as its question. -/
def toggleB (i q : String) : Block := mkBlock i "toggle" [mkRun q]

/-- A level-two heading block with a single text run. -/
def headB (i s : String) : Block := mkBlock i "heading_2" [mkRun s]

/-! Concrete service behaviours used by the concrete-scenario theorems. -/

/-- A toggle whose children are paragraph A, bullet B, numbered C, numbered D. -/
def childrenC1 : String → Except PyErr (List Block) :=
  fun i =>
    if i == "tog1" then
      .ok [paraB "b1" "A", bulletB "b2" "B", numB "b3" "C", numB "b4" "D"]
    else .ok []

/-- A toggle whose numbered run is interrupted by a paragraph. -/
def childrenC2 : String → Except PyErr (List Block) :=
  fun i =>
    if i == "tog2" then .ok [numB "b1" "X", paraB "b2" "gap", numB "b3" "Y"]
    else .ok []

/-- A toggle whose numbered run is interrupted by an unrecognized block type. -/
def childrenC2u : String → Except PyErr (List Block) :=
  fun i =>
    if i == "tog3" then
      .ok [numB "b1" "X", mkBlock "b2" "quote" [mkRun "gap"], numB "b3" "Y"]
    else .ok []

/-- A toggle with a single paragraph child reading `X is Y.`. -/
def childrenC3 : String → Except PyErr (List Block) :=
  fun i => if i == "tq" then .ok [paraB "p1" "X is Y."] else .ok []

/-- A page whose only top-level block is the toggle asking `What is X?`. -/
def blocksC3 : List Block := [toggleB "tq" "What is X?"]

/-- A search result whose `title` property has an empty title array while its
`Name` property holds the matching text `Q`. -/
def emptyTitlePage : PageResult := ⟨"pid1", "url1", some ⟨[]⟩, some ⟨[mkRun "Q"]⟩⟩

/-- A well-formed search result titled `Other`. -/
def otherPage : PageResult := ⟨"pid2", "url2", some ⟨[mkRun "Other"]⟩, none⟩

/-- A toggle block that lacks an `id` key: reading `block['id']` raises. -/
def noIdToggle : Block := ⟨none, some "toggle", some ⟨some [mkRun "Q?"]⟩⟩

/-- A structurally complete note input. -/
def goodNote : NoteInput := .note ⟨true, true, some (.dict true true)⟩

/-- A note input lacking the `fields` mapping. -/
def noFieldsNote : NoteInput := .note ⟨true, true, none⟩

/-- A children listing with a toggle Q&A pair but no headings anywhere. -/
def childrenC10 : String → Except PyErr (List Block) :=
  fun i =>
    if i == "p" then .ok [toggleB "tg" "Q?"]
    else if i == "tg" then .ok [paraB "x" "Ans"]
    else .ok []

/-- A children listing that is empty for every block id. -/
def noChildren : String → Except PyErr (List Block) := fun _ => .ok []

/-! Observers on search results, used to state how `search_notion_page`
selects and reads the title property of one result. -/

/-- Is the title-property shape structurally complete: a non-empty title
array whose first run has a text object with a `content` key? -/
def shapeOk (tp : TitleProp) : Bool :=
  match tp.title with
  | [] => false
  | e :: _ =>
    match e.text with
    | none => false
    | some t => t.content.isSome

/-- The text content read from a title-property shape, when complete. -/
def shapeContent (tp : TitleProp) : Option String :=
  match tp.title with
  | [] => none
  | e :: _ =>
    match e.text with
    | none => none
    | some t => t.content

/-- The shape `search_notion_page` checks on one result: the `title`
property when that key is present, otherwise the `Name` property. -/
def checkedShape (p : PageResult) : Option TitleProp :=
  match p.propTitle with
  | some tp => some tp
  | none => p.propName

/-- A result is well-formed when its checked shape, if any, is complete. -/
def pageOk (p : PageResult) : Bool :=
  match checkedShape p with
  | none => true
  | some tp => shapeOk tp

/-- The title text the scan compares against the query on one result. -/
def checkedTitle (p : PageResult) : Option String :=
  match checkedShape p with
  | none => none
  | some tp => shapeContent tp

/-- The invariant carried by one parsed block contribution: any topic or
question it adds is already stripped and non-empty. -/
def actGood : WalkAction → Prop
  | .skip => True
  | .addTopic x => pyStrip x = x ∧ x ≠ ""
  | .addQA q _ => pyStrip q = q ∧ q ≠ ""

/-- The invariant carried by the walk accumulator: every topic and every
question key is already stripped and non-empty. -/
def stateGood (st : WalkState) : Prop :=
  (∀ x ∈ st.topics, pyStrip x = x ∧ x ≠ "")
  ∧ (∀ kv ∈ st.content, pyStrip kv.1 = kv.1 ∧ kv.1 ≠ "")

/-! Helper lemmas about `pyStrip`. -/

theorem dropWhile_dropWhile (p : Char → Bool) (l : List Char) :
    (l.dropWhile p).dropWhile p = l.dropWhile p := by
  induction l with
  | nil => rfl
  | cons a t ih =>
    by_cases h : p a = true
    · simp [List.dropWhile_cons, h, ih]
    · simp [List.dropWhile_cons, h]

theorem head_false_of_dropWhile {p : Char → Bool} {l : List Char} {a : Char} {t : List Char}
    (h : l.dropWhile p = a :: t) : p a = false := by
  induction l with
  | nil => simp [List.dropWhile] at h
  | cons b l ih =>
    rw [List.dropWhile_cons] at h
    by_cases hb : p b = true
    · rw [if_pos hb] at h; exact ih h
    · rw [if_neg hb] at h
      cases h
      simpa using hb

theorem dropWhile_self_of_head {p : Char → Bool} {l : List Char}
    (h : ∀ x xs, l = x :: xs → p x = false) : l.dropWhile p = l := by
  cases l with
  | nil => rfl
  | cons a t => rw [List.dropWhile_cons, h a t rfl]; simp

theorem stripL_idem (l : List Char) : stripL (stripL l) = stripL l := by
  have hsplit : (l.dropWhile ws).reverse.takeWhile ws ++ (l.dropWhile ws).reverse.dropWhile ws
      = (l.dropWhile ws).reverse :=
    List.takeWhile_append_dropWhile ws (l.dropWhile ws).reverse
  have hpre : l.dropWhile ws =
      ((l.dropWhile ws).reverse.dropWhile ws).reverse ++
        ((l.dropWhile ws).reverse.takeWhile ws).reverse := by
    conv_lhs => rw [← List.reverse_reverse (l.dropWhile ws), ← hsplit]
    rw [List.reverse_append]
  have hhead : ∀ x xs, ((l.dropWhile ws).reverse.dropWhile ws).reverse = x :: xs →
      ws x = false := by
    intro x xs hx
    rw [hx] at hpre
    exact head_false_of_dropWhile
      (t := xs ++ ((l.dropWhile ws).reverse.takeWhile ws).reverse) (by simpa using hpre)
  show stripL (((l.dropWhile ws).reverse.dropWhile ws).reverse) = _
  unfold stripL
  rw [dropWhile_self_of_head hhead, List.reverse_reverse, dropWhile_dropWhile]

theorem pyStrip_idem (s : String) : pyStrip (pyStrip s) = pyStrip s := by
  show String.mk (stripL (stripL s.data)) = String.mk (stripL s.data)
  rw [stripL_idem]

theorem shape_spec (tp : TitleProp) (q : String) (h : shapeOk tp = true) :
    ∃ c, shapeContent tp = some c ∧ titleMatches tp q = .ok (c == q) := by
  obtain ⟨title⟩ := tp
  cases title with
  | nil => exact Bool.noConfusion h
  | cons e rest =>
    obtain ⟨tx⟩ := e
    cases tx with
    | none => exact Bool.noConfusion h
    | some t =>
      obtain ⟨ct⟩ := t
      cases ct with
      | none => exact Bool.noConfusion h
      | some c => exact ⟨c, rfl, rfl⟩

/-! The claim theorems. -/

/-- Claim C1: for a toggle block whose children are, in order, a paragraph
`A`, a bulleted item `B`, a numbered item `C` and a numbered item `D`, the
answer reconstructed by `get_toggle_answer` is exactly the string
`A\n- B\n1. C\n2. D\n`. -/
theorem c1_toggle_answer_rendering :
    get_toggle_answer childrenC1 "tog1" = .ok "A\n- B\n1. C\n2. D\n" := rfl

/-- Claim C2: a numbered item renders with counter 1 whenever the immediately
preceding sibling (of any type, unrecognized ones included) was not a
numbered item, and with the previous counter plus one otherwise; in
particular a toggle with children numbered `X`, paragraph `gap`, numbered `Y`
renders `1. X` then `1. Y`, and so does one with an unrecognized block
between the two numbered items. -/
theorem c2_numbered_counter_reset (rest : List Block) (number : Nat)
    (prev : Option String) (answer s i : String) :
    (prev ≠ some "numbered_list_item" →
      toggleLoop (numB i s :: rest) number prev answer =
        toggleLoop rest 1 (some "numbered_list_item")
          (answer ++ ("1. " ++ s) ++ "\n"))
    ∧ toggleLoop (numB i s :: rest) number (some "numbered_list_item") answer =
        toggleLoop rest (number + 1) (some "numbered_list_item")
          (answer ++ (toString (number + 1) ++ ". " ++ s) ++ "\n")
    ∧ get_toggle_answer childrenC2 "tog2" = .ok "1. X\ngap\n1. Y\n"
    ∧ get_toggle_answer childrenC2u "tog3" = .ok "1. X\n1. Y\n" := by
  refine ⟨fun h => ?_, ?_, rfl, rfl⟩
  · have hbeq : (prev == some "numbered_list_item") = false := by simpa using h
    simp [toggleLoop, numB, mkBlock, mkRun, renderRuns, hbeq]
    rfl
  · simp [toggleLoop, numB, mkBlock, mkRun, renderRuns]

theorem c2_numbered_counter_reset_witness :
    toggleLoop (numB "b9" "X" :: []) 5 (some "paragraph") "" =
      toggleLoop [] 1 (some "numbered_list_item") ("" ++ ("1. " ++ "X") ++ "\n") :=
  (c2_numbered_counter_reset [] 5 (some "paragraph") "" "X" "b9").1 (by decide)

/-- Claim C3 (counterexample): for the page whose single toggle `What is X?`
has the lone paragraph child `X is Y.`, `analyze_blocks` stores the answer
`X is Y.` — the reconstructed text with its trailing line break stripped —
not `X is Y.\n` as the claim states. -/
theorem c3_counterexample :
    analyze_blocks childrenC3 blocksC3 = .ok ([], [("What is X?", "X is Y.")])
    ∧ ("X is Y." : String) ≠ "X is Y.\n" := by
  exact ⟨rfl, by decide⟩

/-- Claim C3 (amended): extraction of that page produces the mapping from
`What is X?` to `X is Y.`: the reconstructed answer text is `X is Y.\n`, and
the stored value is that text with surrounding whitespace stripped, so its
trailing line break is removed. -/
theorem c3_amended_extraction :
    get_toggle_answer childrenC3 "tq" = .ok "X is Y.\n"
    ∧ pyStrip "X is Y.\n" = "X is Y."
    ∧ analyze_blocks childrenC3 blocksC3 = .ok ([], [("What is X?", "X is Y.")]) :=
  ⟨rfl, rfl, rfl⟩

/-- Claim C4 (counterexample): on a result whose `title` property is present
but has an empty title array, `search_notion_page` raises `IndexError`
instead of consulting the non-empty matching `Name` property or returning
none — refuting both the present-and-non-empty selection rule and the
no-exception guarantee. -/
theorem c4_counterexample :
    search_notion_page [emptyTitlePage] "Q" = .error .indexError
    ∧ search_notion_page [emptyTitlePage] "Q" ≠ .ok none
    ∧ search_notion_page [emptyTitlePage] "Q" ≠ .ok (some ⟨"pid1", "url1"⟩) := by
  refine ⟨rfl, ?_, ?_⟩
  · intro h
    rw [show search_notion_page [emptyTitlePage] "Q" = .error .indexError from rfl] at h
    exact Except.noConfusion h
  · intro h
    rw [show search_notion_page [emptyTitlePage] "Q" = .error .indexError from rfl] at h
    exact Except.noConfusion h

/-- Claim C4 (amended): `search_notion_page` checks, on each result, the
`title` property when that key is present (even when empty) and otherwise the
`Name` property; when every checked property is structurally complete, it
returns exactly the first result whose checked title equals the input
(case-sensitive) and none when no result matches; a structurally incomplete
checked property makes the corresponding exception propagate instead. -/
theorem c4_amended_first_exact_match (results : List PageResult) (q : String)
    (h : ∀ p ∈ results, pageOk p = true) :
    search_notion_page results q =
      .ok ((results.find? (fun p => checkedTitle p == some q)).map
        (fun p => ⟨p.id, p.url⟩)) := by
  induction results with
  | nil => rfl
  | cons p rest ih =>
    have hp : pageOk p = true := h p (by simp)
    have hrest := ih (fun x hx => h x (by simp [hx]))
    obtain ⟨pid, purl, pt, pn⟩ := p
    cases pt with
    | some tp =>
      have hp' : shapeOk tp = true := hp
      obtain ⟨c, hsc, htm⟩ := shape_spec tp q hp'
      have hct : checkedTitle ⟨pid, purl, some tp, pn⟩ = some c := hsc
      by_cases hcq : c = q
      · subst hcq
        simp [search_notion_page, htm, List.find?_cons, hct]
      · have hb : (c == q) = false := by simpa using hcq
        have hob : (some c == some q) = false := by simpa using hcq
        simp [search_notion_page, htm, List.find?_cons, hct, hb, hob, hrest]
    | none =>
      cases pn with
      | some tp =>
        have hp' : shapeOk tp = true := hp
        obtain ⟨c, hsc, htm⟩ := shape_spec tp q hp'
        have hct : checkedTitle ⟨pid, purl, none, some tp⟩ = some c := hsc
        by_cases hcq : c = q
        · subst hcq
          simp [search_notion_page, htm, List.find?_cons, hct]
        · have hb : (c == q) = false := by simpa using hcq
          have hob : (some c == some q) = false := by simpa using hcq
          simp [search_notion_page, htm, List.find?_cons, hct, hb, hob, hrest]
      | none =>
        have hct : checkedTitle ⟨pid, purl, none, none⟩ = none := rfl
        simp [search_notion_page, List.find?_cons, hct, hrest]

theorem c4_amended_first_exact_match_witness :
    search_notion_page [otherPage] "Q" =
      .ok (([otherPage].find? (fun p => checkedTitle p == some "Q")).map
        (fun p => (⟨p.id, p.url⟩ : FoundPage))) :=
  c4_amended_first_exact_match [otherPage] "Q" (by decide)

theorem analyzeGo_cons (childrenOf : String → Except PyErr (List Block))
    (st : WalkState) (b : Block) (rest : List Block) :
    analyzeGo childrenOf st (b :: rest) =
      match blockParse childrenOf b with
      | .ok act => analyzeGo childrenOf (applyAction st act) rest
      | .error e => if catchable e = true then analyzeGo childrenOf st rest
                    else .error e := rfl

theorem analyzeGo_skip (childrenOf : String → Except PyErr (List Block))
    (pre post : List Block) (bad : Block) (e : PyErr)
    (hbad : blockParse childrenOf bad = .error e) (hc : catchable e = true) :
    ∀ st, analyzeGo childrenOf st (pre ++ bad :: post) =
      analyzeGo childrenOf st (pre ++ post) := by
  induction pre with
  | nil =>
    intro st
    show analyzeGo childrenOf st (bad :: post) = analyzeGo childrenOf st post
    rw [analyzeGo_cons, hbad]
    simp [hc]
  | cons b pre ih =>
    intro st
    show analyzeGo childrenOf st (b :: (pre ++ bad :: post)) =
      analyzeGo childrenOf st (b :: (pre ++ post))
    rw [analyzeGo_cons, analyzeGo_cons]
    cases hb : blockParse childrenOf b with
    | ok act => simp [ih]
    | error e' =>
      by_cases hce : catchable e' = true
      · simp [hce, ih]
      · simp [hce]

/-- Claim C5: a top-level block whose parsing raises one of the exception
classes caught per block (`KeyError`, `IndexError`, `TypeError` — what a
structurally malformed block produces) is skipped: the walk of the sequence
with the malformed block inserted returns exactly the topics and Q&A pairs of
the walk without it, so no per-block parsing exception reaches the caller. -/
theorem c5_malformed_block_skipped (childrenOf : String → Except PyErr (List Block))
    (pre post : List Block) (bad : Block) (e : PyErr)
    (hbad : blockParse childrenOf bad = .error e) (hc : catchable e = true) :
    analyze_blocks childrenOf (pre ++ bad :: post) =
      analyze_blocks childrenOf (pre ++ post) := by
  unfold analyze_blocks
  rw [analyzeGo_skip childrenOf pre post bad e hbad hc]

theorem c5_malformed_block_skipped_witness :
    analyze_blocks noChildren ([headB "h1" "Topic"] ++ noIdToggle :: [paraB "p" "x"]) =
      analyze_blocks noChildren ([headB "h1" "Topic"] ++ [paraB "p" "x"]) :=
  c5_malformed_block_skipped noChildren [headB "h1" "Topic"] [paraB "p" "x"]
    noIdToggle .keyError rfl rfl

/-- Claim C6: whenever deck creation and note submission succeed,
`post_flashcards` returns status `added` with the submission result intact,
whatever the sync call does — `sync_decks` swallows a sync exception, so a
sync failure never fails the publish operation. -/
theorem c6_sync_failure_never_fails_publish (invokeCreate : String → Except PyErr Nat)
    (invokeAdd : List NoteInput → Except PyErr (List (Option Nat)))
    (invokeSync : Except PyErr Unit)
    (page_name : String) (cards : List NoteInput) (dk : Nat) (r : List (Option Nat))
    (hck : create_deck invokeCreate page_name = .ok dk)
    (hadd : add_notes invokeAdd cards = .ok r) :
    post_flashcards invokeCreate invokeAdd invokeSync page_name cards =
      ⟨"added", r, "Added flashcards to Anki deck"⟩ := by
  unfold post_flashcards
  rw [hck, hadd]
  cases invokeSync <;> rfl

theorem c6_sync_failure_never_fails_publish_witness :
    post_flashcards (fun _ => .ok 7) (fun _ => .ok [some 5]) (.error .networkError)
        "Deck" [goodNote] = ⟨"added", [some 5], "Added flashcards to Anki deck"⟩ :=
  c6_sync_failure_never_fails_publish (fun _ => .ok 7) (fun _ => .ok [some 5])
    (.error .networkError) "Deck" [goodNote] 7 [some 5] rfl rfl

/-- Claim C7: `add_notes` drops every note failing structural validation
(`noteValid`), submits exactly the surviving notes to the batch call, and —
since the right-hand side does not consult `invokeAdd` when nothing survives —
makes no network call and returns the empty list when zero notes survive. -/
theorem c7_validation_gate (invokeAdd : List NoteInput → Except PyErr (List (Option Nat)))
    (notes : List NoteInput) :
    add_notes invokeAdd notes =
      if (notes.filter noteValid).isEmpty then .ok []
      else invokeAdd (notes.filter noteValid) := by
  have hcv : collectValid notes = notes.filter noteValid := by
    induction notes with
    | nil => rfl
    | cons n rest ih =>
      by_cases h : noteValid n = true <;> simp [collectValid, List.filter_cons, h, ih]
  unfold add_notes
  rw [hcv]
  cases notes with
  | nil => simp
  | cons n rest => rfl

/-- Claim C8 (counterexample): the `generate_flashcards` tool reports an
empty page name with status `failed`, not with the `error` status the claim
asserts for every tool entry point (`search_page` does use `error`). -/
theorem c8_counterexample :
    (generate_flashcards (fun _ _ _ => .ok []) (fun _ => .ok 0) (fun _ => .ok [])
        (.ok ()) "" ["t"] [("q", "a")]).status = "failed"
    ∧ (search_page (fun _ => .ok []) "").status = "error"
    ∧ ("failed" : String) ≠ "error" :=
  ⟨rfl, rfl, by decide⟩

/-- Claim C8 (amended): an empty or missing required string argument is
reported synchronously in the structured status envelope — with status
`error` by `search_page` and `extract_page_content`, and with status `failed`
by `generate_flashcards` — and for every behaviour of the component calls,
exceptions included, each tool returns its envelope with a status from its
fixed set, so no exception crosses the tool boundary. -/
theorem c8_amended_tool_envelopes
    (searchCall : String → Except PyErr (List PageResult))
    (childrenOf : String → Except PyErr (List Block))
    (gen : String → List String → List (String × String) → Except PyErr (List NoteInput))
    (invokeCreate : String → Except PyErr Nat)
    (invokeAdd : List NoteInput → Except PyErr (List (Option Nat)))
    (invokeSync : Except PyErr Unit)
    (page_name page_id : String) (topics : List String)
    (content : List (String × String)) :
    ((search_page searchCall page_name).status = "success" ∨
      (search_page searchCall page_name).status = "error")
    ∧ (pyStrip page_name = "" → (search_page searchCall page_name).status = "error")
    ∧ ((extract_page_content childrenOf page_id).status = "success" ∨
      (extract_page_content childrenOf page_id).status = "error")
    ∧ (pyStrip page_id = "" → (extract_page_content childrenOf page_id).status = "error")
    ∧ ((generate_flashcards gen invokeCreate invokeAdd invokeSync
          page_name topics content).status = "created" ∨
      (generate_flashcards gen invokeCreate invokeAdd invokeSync
          page_name topics content).status = "failed")
    ∧ (pyStrip page_name = "" →
      (generate_flashcards gen invokeCreate invokeAdd invokeSync
          page_name topics content).status = "failed") := by
  refine ⟨?_, ?_, ?_, ?_, ?_, ?_⟩
  · unfold search_page
    split
    · exact Or.inr rfl
    · split
      · exact Or.inr rfl
      · split
        · exact Or.inr rfl
        · exact Or.inl rfl
        · exact Or.inr rfl
  · intro h
    unfold search_page
    rw [if_pos h]
  · unfold extract_page_content
    split
    · exact Or.inr rfl
    · split
      · exact Or.inr rfl
      · exact Or.inr rfl
      · split
        · exact Or.inr rfl
        · exact Or.inl rfl
  · intro h
    unfold extract_page_content
    rw [if_pos h]
  · unfold generate_flashcards
    split
    · exact Or.inr rfl
    · split
      · exact Or.inr rfl
      · split
        · exact Or.inr rfl
        · split
          · exact Or.inr rfl
          · split
            · exact Or.inr rfl
            · dsimp only
              split
              · exact Or.inl rfl
              · exact Or.inr rfl
  · intro h
    unfold generate_flashcards
    rw [if_pos h]

theorem c8_amended_tool_envelopes_witness :
    (search_page (fun _ => .error .networkError) "").status = "error"
    ∧ (extract_page_content (fun _ => .error .networkError) "").status = "error"
    ∧ (generate_flashcards (fun _ _ _ => .error .networkError) (fun _ => .ok 0)
        (fun _ => .ok []) (.ok ()) "" [] []).status = "failed" := by
  have h := c8_amended_tool_envelopes (fun _ => .error .networkError)
    (fun _ => .error .networkError) (fun _ _ _ => .error .networkError)
    (fun _ => .ok 0) (fun _ => .ok []) (.ok ()) "" "" [] []
  exact ⟨h.2.1 rfl, h.2.2.2.1 rfl, h.2.2.2.2.2 rfl⟩

theorem blockParse_good (childrenOf : String → Except PyErr (List Block))
    (b : Block) (act : WalkAction)
    (h : blockParse childrenOf b = .ok act) : actGood act := by
  unfold blockParse at h
  dsimp only at h
  split at h
  · split at h
    · exact Except.noConfusion h
    · cases h
      trivial
    · split at h
      · cases h
        trivial
      · cases h
        exact ⟨pyStrip_idem _, by assumption⟩
  · split at h
    · split at h
      · exact Except.noConfusion h
      · cases h
        trivial
      · split at h
        · cases h
          trivial
        · split at h
          · exact Except.noConfusion h
          · split at h
            · exact Except.noConfusion h
            · split at h
              · cases h
                trivial
              · cases h
                exact ⟨pyStrip_idem _, by assumption⟩
    · cases h
      trivial

theorem setAdd_mem {xs : List String} {x y : String} (h : y ∈ setAdd xs x) :
    y ∈ xs ∨ y = x := by
  unfold setAdd at h
  split at h
  · exact Or.inl h
  · rcases List.mem_append.mp h with h | h
    · exact Or.inl h
    · simp at h
      exact Or.inr h

theorem dictInsert_mem {xs : List (String × String)} {k v : String}
    {kv : String × String} (h : kv ∈ dictInsert xs k v) : kv ∈ xs ∨ kv.1 = k := by
  unfold dictInsert at h
  split at h
  · obtain ⟨p, hp, hfp⟩ := List.mem_map.mp h
    by_cases hpk : (p.1 == k) = true
    · rw [if_pos hpk] at hfp
      right
      rw [← hfp]
    · rw [if_neg hpk] at hfp
      left
      rw [← hfp]
      exact hp
  · rcases List.mem_append.mp h with h | h
    · exact Or.inl h
    · simp at h
      right
      rw [h]

theorem applyAction_good {st : WalkState} {act : WalkAction}
    (hst : stateGood st) (ha : actGood act) : stateGood (applyAction st act) := by
  cases act with
  | skip => exact hst
  | addTopic x =>
    refine ⟨fun y hy => ?_, hst.2⟩
    rcases setAdd_mem hy with h | h
    · exact hst.1 y h
    · rw [h]
      exact ha
  | addQA q a =>
    refine ⟨hst.1, fun kv hkv => ?_⟩
    rcases dictInsert_mem hkv with h | h
    · exact hst.2 kv h
    · rw [h]
      exact ha

theorem analyzeGo_good (childrenOf : String → Except PyErr (List Block)) :
    ∀ (blocks : List Block) (st st' : WalkState), stateGood st →
      analyzeGo childrenOf st blocks = .ok st' → stateGood st' := by
  intro blocks
  induction blocks with
  | nil =>
    intro st st' h heq
    cases heq
    exact h
  | cons b rest ih =>
    intro st st' h heq
    rw [analyzeGo_cons] at heq
    cases hb : blockParse childrenOf b with
    | ok act =>
      rw [hb] at heq
      exact ih _ _ (applyAction_good h (blockParse_good childrenOf b act hb)) heq
    | error e =>
      rw [hb] at heq
      dsimp only at heq
      by_cases hce : catchable e = true
      · rw [if_pos hce] at heq
        exact ih _ _ h heq
      · rw [if_neg hce] at heq
        exact Except.noConfusion heq

/-- Claim C9: whenever the block walk returns a topic set and Q&A mapping,
every topic and every question key is stored already stripped and non-empty —
so each is non-empty after trimming; a blank heading or a toggle whose
question or reconstructed answer trims to empty can contribute nothing. -/
theorem c9_nonempty_after_trim (childrenOf : String → Except PyErr (List Block))
    (blocks : List Block) (t : List String) (c : List (String × String))
    (h : analyze_blocks childrenOf blocks = .ok (t, c)) :
    (∀ x ∈ t, pyStrip x = x ∧ x ≠ "")
    ∧ (∀ kv ∈ c, pyStrip kv.1 = kv.1 ∧ kv.1 ≠ "") := by
  unfold analyze_blocks at h
  cases hg : analyzeGo childrenOf ⟨[], []⟩ blocks with
  | ok st =>
    rw [hg] at h
    cases h
    exact analyzeGo_good childrenOf blocks ⟨[], []⟩ st ⟨by simp, by simp⟩ hg
  | error e =>
    rw [hg] at h
    exact Except.noConfusion h

theorem c9_nonempty_after_trim_witness : pyStrip "Q" = "Q" ∧ "Q" ≠ "" :=
  (c9_nonempty_after_trim noChildren [headB "h1" " Q "] ["Q"] [] rfl).1 "Q" (by simp)

theorem fetch_some_nonempty (childrenOf : String → Except PyErr (List Block))
    (pid : String) (t : List String) (c : List (String × String))
    (h : fetch_page_content childrenOf pid = .ok (some (t, c))) :
    t ≠ [] ∧ c ≠ [] := by
  unfold fetch_page_content at h
  cases hcb : childrenOf pid with
  | error e =>
    rw [hcb] at h
    exact Except.noConfusion h
  | ok bs =>
    rw [hcb] at h
    dsimp only at h
    cases han : analyze_blocks childrenOf bs with
    | error e =>
      rw [han] at h
      exact Except.noConfusion h
    | ok pair =>
      rw [han] at h
      obtain ⟨t', c'⟩ := pair
      dsimp only at h
      split at h
      · cases h
        rename_i hcond
        constructor
        · intro ht
          rw [ht] at hcond
          simp at hcond
        · intro hc
          rw [hc] at hcond
          simp at hcond
      · cases h

/-- Claim C10: `extract_page_content` reports status `success` only when the
extracted topic set and Q&A mapping are both non-empty — `fetch_page_content`
returns the pair only when both are non-empty and `None` otherwise — so a
page whose walk yields toggles but no headings, or headings but no toggles,
is reported with status `error`. -/
theorem c10_success_requires_both_nonempty
    (childrenOf : String → Except PyErr (List Block)) (page_id : String) :
    ((extract_page_content childrenOf page_id).status = "success" →
      ∃ t c, fetch_page_content childrenOf (pyStrip page_id) = .ok (some (t, c))
        ∧ t ≠ [] ∧ c ≠ [])
    ∧ (∀ bs t c, childrenOf (pyStrip page_id) = .ok bs →
        analyze_blocks childrenOf bs = .ok (t, c) → (t = [] ∨ c = []) →
        (extract_page_content childrenOf page_id).status = "error") := by
  constructor
  · intro hs
    unfold extract_page_content at hs
    by_cases he : pyStrip page_id = ""
    · rw [if_pos he] at hs
      exact absurd hs (by decide)
    · rw [if_neg he] at hs
      cases hf : fetch_page_content childrenOf (pyStrip page_id) with
      | error e =>
        rw [hf] at hs
        dsimp only at hs
        exact absurd hs (by decide)
      | ok opt =>
        rw [hf] at hs
        cases opt with
        | none =>
          dsimp only at hs
          exact absurd hs (by decide)
        | some pair =>
          obtain ⟨t, c⟩ := pair
          refine ⟨t, c, rfl, ?_⟩
          exact fetch_some_nonempty childrenOf (pyStrip page_id) t c hf
  · intro bs t c hcb han htc
    have hf : fetch_page_content childrenOf (pyStrip page_id) = .ok none := by
      unfold fetch_page_content
      rw [hcb]
      dsimp only
      rw [han]
      dsimp only
      rcases htc with h | h <;> simp [h]
    unfold extract_page_content
    by_cases he : pyStrip page_id = ""
    · rw [if_pos he]
    · rw [if_neg he, hf]

theorem c10_success_requires_both_nonempty_witness :
    (extract_page_content childrenC10 "p").status = "error" :=
  (c10_success_requires_both_nonempty childrenC10 "p").2 [toggleB "tg" "Q?"]
    [] [("Q?", "Ans")] rfl rfl (Or.inl rfl)

end NotionAnki
